import Mathlib

/-!
Verification of the pocut repository's core logic: the countdown timer
widget (`src/pocut/widgets/pomodoro_clock.py`) and the recurrence
scheduling engine (`src/pocut/utils/taskmanager.py`), shallowly embedded
in Lean 4.

Conventions of the embedding:
* The `TimeDisplay` widget's reactive attributes become record fields.
  The textual `set_interval` timer created in `on_mount` (with
  `pause=True`) is represented by the field `intervalPaused`: a tick
  event invokes `update_time` exactly when the interval timer is not
  paused, which is how `set_interval`, `Timer.pause` and `Timer.resume`
  behave.  Invocations of the `on_time_up_callback` are counted in
  `completedCount` (the callback is always installed by `PomodoroClock`).
* Dates (`datetime` values at day granularity) are integers counting
  days since 1970-01-01, which was a Thursday; `timedelta(days = n)`
  becomes `+ n` and `strftime` with the weekday format becomes
  `weekdayName`.
* The sqlite task store becomes a list of task records plus the next
  AUTOINCREMENT id.  `datetime.now()` becomes an explicit `now`
  argument.
-/

namespace Pocut

/-- State of the `TimeDisplay` widget (`pomodoro_clock.py`).  `duration`,
`remaining_time`, `timer_active` and `paused` are its reactive
attributes; `intervalPaused` is the pause state of the `update_timer`
interval created in `on_mount`; `completedCount` counts invocations of
the on-time-up callback. -/
structure TimeDisplay where
  duration : Int
  remaining_time : Int
  timer_active : Bool
  paused : Bool
  intervalPaused : Bool
  completedCount : Nat
deriving Repr, DecidableEq

/-- A freshly created `TimeDisplay` after `on_mount`: reactive defaults
`duration = 0`, `remaining_time = 0`, `timer_active = false`,
`paused = false`, and the interval timer created paused
(`set_interval(1, self.update_time, pause=True)`). -/
def freshTimeDisplay : TimeDisplay :=
  { duration := 0, remaining_time := 0, timer_active := false,
    paused := false, intervalPaused := true, completedCount := 0 }

/-- `TimeDisplay.stop`: pause the interval timer, clear `timer_active`,
set `paused`. -/
def TimeDisplay.stop (s : TimeDisplay) : TimeDisplay :=
  { s with intervalPaused := true, timer_active := false, paused := true }

/-- `TimeDisplay.update_time`: if `remaining_time > 0`, decrement it by
one; otherwise call `stop()` and then the on-time-up callback. -/
def TimeDisplay.update_time (s : TimeDisplay) : TimeDisplay :=
  if s.remaining_time > 0 then
    { s with remaining_time := s.remaining_time - 1 }
  else
    { s.stop with completedCount := s.completedCount + 1 }

/-- One tick event of the interval timer: `update_time` runs exactly
when the interval timer is not paused. -/
def TimeDisplay.tick (s : TimeDisplay) : TimeDisplay :=
  if s.intervalPaused then s else s.update_time

/-- `TimeDisplay.start(duration=None)`: when a duration is given, set
`duration` and `remaining_time` to it (no validation of any kind); then
set `timer_active`, clear `paused`, and resume the interval timer. -/
def TimeDisplay.start (s : TimeDisplay) (duration : Option Int) : TimeDisplay :=
  let s1 :=
    match duration with
    | some d => { s with duration := d, remaining_time := d }
    | none => s
  { s1 with timer_active := true, paused := false, intervalPaused := false }

/-- `TimeDisplay.reset`: `stop()`, restore `remaining_time` to
`duration`, clear `paused`. -/
def TimeDisplay.reset (s : TimeDisplay) : TimeDisplay :=
  { s.stop with remaining_time := s.duration, paused := false }

/-- Apply `n` tick events. -/
def tickN (n : Nat) (s : TimeDisplay) : TimeDisplay :=
  match n with
  | 0 => s
  | Nat.succ m => (tickN m s).tick

/-- The state mid-countdown: total `d`, remaining `r`, running, interval
live, no completion signalled yet. -/
def runState (d : Nat) (r : Int) : TimeDisplay :=
  { duration := (d : Int), remaining_time := r, timer_active := true,
    paused := false, intervalPaused := false, completedCount := 0 }

/-- The state after the countdown has completed: stopped, interval
paused, exactly one completion signalled. -/
def doneState (d : Nat) : TimeDisplay :=
  { duration := (d : Int), remaining_time := 0, timer_active := false,
    paused := true, intervalPaused := true, completedCount := 1 }

lemma start_fresh (d : Nat) :
    freshTimeDisplay.start (some (d : Int)) = runState d (d : Int) := rfl

lemma tick_runState_pos (d : Nat) (r : Int) (h : 0 < r) :
    (runState d r).tick = runState d (r - 1) := by
  simp [TimeDisplay.tick, TimeDisplay.update_time, runState, h]

lemma tick_runState_zero (d : Nat) :
    (runState d 0).tick = doneState d := by
  simp [TimeDisplay.tick, TimeDisplay.update_time, TimeDisplay.stop,
    runState, doneState]

lemma tick_frozen (s : TimeDisplay) (h : s.intervalPaused = true) :
    s.tick = s := by
  simp [TimeDisplay.tick, h]

lemma tick_doneState (d : Nat) : (doneState d).tick = doneState d :=
  tick_frozen _ rfl

lemma tickN_frozen (n : Nat) (s : TimeDisplay) (h : s.intervalPaused = true) :
    tickN n s = s := by
  induction n with
  | zero => rfl
  | succ m ih => rw [tickN, ih, tick_frozen s h]

/-- Full characterisation of the tick sequence after `start(d)` on a
fresh `TimeDisplay`: for the first `d` ticks the state counts down; from
tick `d + 1` on it is the completed state. -/
lemma tickN_runState (d n : Nat) :
    tickN n (runState d (d : Int)) =
      if n ≤ d then runState d ((d : Int) - (n : Int)) else doneState d := by
  induction n with
  | zero => simp [tickN]
  | succ m ih =>
    rw [tickN, ih]
    by_cases h : m + 1 ≤ d
    · have hm : m ≤ d := Nat.le_of_succ_le h
      rw [if_pos hm, if_pos h]
      have hr : 0 < (d : Int) - (m : Int) := by
        have : m < d := h
        omega
      rw [tick_runState_pos d _ hr]
      congr 1
      push_cast
      ring
    · rw [if_neg h]
      by_cases hm : m ≤ d
      · have hmd : m = d := by omega
        rw [if_pos hm, hmd]
        rw [sub_self]
        exact tick_runState_zero d
      · rw [if_neg hm]
        exact tick_doneState d

/-- The parts of `AppState` (`state.py`) the phase controller reads: the
phase flag and the two configured durations (`config["durations"]`). -/
structure AppState where
  is_work_phase : Bool
  work_duration : Int
  break_duration : Int
deriving Repr, DecidableEq

/-- `AppState.toggle_phase`: negate `is_work_phase`. -/
def AppState.toggle_phase (st : AppState) : AppState :=
  { st with is_work_phase := !st.is_work_phase }

/-- The `PomodoroClock` widget: the shared state plus its owned
`TimeDisplay`. -/
structure PomodoroClock where
  state : AppState
  time_display : TimeDisplay
deriving Repr, DecidableEq

/-- `PomodoroClock.update_timer_for_current_phase`: read the current
phase's configured duration, `reset()` the display, then set its
`duration` and `remaining_time` to that duration. -/
def PomodoroClock.update_timer_for_current_phase (c : PomodoroClock) : PomodoroClock :=
  let duration :=
    if c.state.is_work_phase then c.state.work_duration else c.state.break_duration
  { c with time_display :=
      { c.time_display.reset with duration := duration, remaining_time := duration } }

/-- `PomodoroClock.on_time_up` (state-relevant part): toggle the phase,
then `update_timer_for_current_phase`.  The sound playback and UI
notifications it also performs are external side effects with no effect
on this state. -/
def PomodoroClock.on_time_up (c : PomodoroClock) : PomodoroClock :=
  PomodoroClock.update_timer_for_current_phase
    { c with state := c.state.toggle_phase }

/-- The `toggle_phase` branch of `PomodoroClock.on_button_pressed`
(state-relevant part): toggle the phase, then
`update_timer_for_current_phase`. -/
def PomodoroClock.press_toggle_phase (c : PomodoroClock) : PomodoroClock :=
  PomodoroClock.update_timer_for_current_phase
    { c with state := c.state.toggle_phase }

/-- A task record (`Task` dataclass in `taskmanager.py`).  Dates and
timestamps are integers (days since 1970-01-01). -/
structure Task where
  id : Option Nat
  title : String
  text : String
  completed : Bool
  priority : Int
  category_id : Option Nat
  attempts : Int
  time_spent : Int
  due_date : Option Int
  is_daily : Bool
  is_weekly : Bool
  is_monthly : Bool
  is_yearly : Bool
  days_of_week : List String
  created_at : Int
  updated_at : Int
deriving Repr, DecidableEq

/-- English weekday name of a day number (`strftime` with the full
weekday format); day 0 = 1970-01-01 was a Thursday. -/
def weekdayName (d : Int) : String :=
  match (d % 7).toNat with
  | 0 => "Thursday"
  | 1 => "Friday"
  | 2 => "Saturday"
  | 3 => "Sunday"
  | 4 => "Monday"
  | 5 => "Tuesday"
  | _ => "Wednesday"

/-- `TaskManager._get_next_weekly_date`: for an empty day list return
nothing; otherwise anchor at `now`, moved up to `due_date` when that is
present and strictly later, and return the first of the 7 consecutive
candidate days whose weekday name occurs in `days_of_week`. -/
def get_next_weekly_date (due_date : Option Int) (days_of_week : List String)
    (now : Int) : Option Int :=
  if days_of_week.isEmpty then none
  else
    let today :=
      match due_date with
      | some d => if d > now then d else now
      | none => now
    (List.range 7).findSome? fun i =>
      if days_of_week.contains (weekdayName (today + (i : Int))) then
        some (today + (i : Int))
      else none

/-- `TaskManager._calculate_next_due_date`: the if-chain over the four
recurrence flags, in source order daily, weekly, monthly, yearly;
`datetime.now()` is the explicit `now`. -/
def calculate_next_due_date (due_date : Option Int) (task : Task) (now : Int) :
    Option Int :=
  if task.is_daily then
    some (match due_date with | some d => d + 1 | none => now + 1)
  else if task.is_weekly then
    get_next_weekly_date due_date task.days_of_week now
  else if task.is_monthly then
    some (match due_date with | some d => d + 30 | none => now + 30)
  else if task.is_yearly then
    some (match due_date with | some d => d + 365 | none => now + 365)
  else
    none

/-- The sqlite `tasks` table: the stored rows plus the next
AUTOINCREMENT id. -/
structure TaskStore where
  tasks : List Task
  nextId : Nat
deriving Repr, DecidableEq

/-- `TaskManager.add_task`: insert the record, which receives the next
AUTOINCREMENT id (also written back into the task object via
`cursor.lastrowid`).  Returns the updated store and the stored record. -/
def add_task (store : TaskStore) (task : Task) : TaskStore × Task :=
  let stored := { task with id := some store.nextId }
  ({ tasks := store.tasks ++ [stored], nextId := store.nextId + 1 }, stored)

/-- The fetch filter of `process_repeated_tasks`:
`completed = 0 AND (is_daily = 1 OR is_weekly = 1 OR is_monthly = 1 OR is_yearly = 1)`. -/
def isRecurringPending (t : Task) : Bool :=
  !t.completed && (t.is_daily || t.is_weekly || t.is_monthly || t.is_yearly)

/-- The `Task(...)` constructor call inside `process_repeated_tasks`:
copy `title`, `text`, `priority`, the four recurrence flags,
`days_of_week` and `category_id` from the source, set `due_date` to the
computed next due date; every other field takes its dataclass default
(`completed = False`, `attempts = 0`, `time_spent = 0`, `id = None`,
fresh `created_at`/`updated_at`). -/
def mkFollowUp (task : Task) (new_due : Int) (now : Int) : Task :=
  { id := none, title := task.title, text := task.text, completed := false,
    priority := task.priority, category_id := task.category_id,
    attempts := 0, time_spent := 0, due_date := some new_due,
    is_daily := task.is_daily, is_weekly := task.is_weekly,
    is_monthly := task.is_monthly, is_yearly := task.is_yearly,
    days_of_week := task.days_of_week, created_at := now, updated_at := now }

/-- `TaskManager.process_repeated_tasks`: fetch all uncompleted
recurring tasks, and for each whose next due date is defined insert a
follow-up record.  The fetch happens once, before any insert. -/
def process_repeated_tasks (store : TaskStore) (now : Int) : TaskStore :=
  (store.tasks.filter isRecurringPending).foldl
    (fun st task =>
      match calculate_next_due_date task.due_date task now with
      | some nd => (add_task st (mkFollowUp task nd now)).1
      | none => st)
    store

/-- A task record with the given recurrence flags and weekday list and
default values for the remaining fields, used to quantify over
recurrence configurations. -/
def recTask (d w m y : Bool) (days : List String) : Task :=
  { id := none, title := "Untitled Task", text := "", completed := false,
    priority := 1, category_id := none, attempts := 0, time_spent := 0,
    due_date := none, is_daily := d, is_weekly := w, is_monthly := m,
    is_yearly := y, days_of_week := days, created_at := 0, updated_at := 0 }

/-- Modelled from the spec wording for the Weekly rule: the anchor is
the previous due date when present and strictly later than the
reference instant, otherwise the reference instant. -/
def weeklyAnchor (due_date : Option Int) (now : Int) : Int :=
  match due_date with
  | some d => if d > now then d else now
  | none => now

/-- A concrete store holding exactly one uncompleted Daily recurring
task (id 1, due day 100). -/
def dailyTaskExample : Task :=
  { recTask true false false false [] with
      id := some 1, title := "Daily task example",
      text := "Example of a daily repeated task", priority := 3,
      due_date := some 100 }

def storeExample : TaskStore :=
  { tasks := [dailyTaskExample], nextId := 2 }

lemma calc_daily (due : Option Int) (t : Task) (now : Int)
    (h : t.is_daily = true) :
    calculate_next_due_date due t now = some (due.getD now + 1) := by
  cases due <;> simp [calculate_next_due_date, h]

/-- Searching the mapped list for the first element satisfying a
predicate is the same as scanning the indices and returning the first
mapped value that satisfies it. -/
lemma map_find?_eq_findSome? {α β : Type} (l : List α) (g : α → β)
    (p : β → Bool) :
    (l.map g).find? p =
      l.findSome? fun a => if p (g a) then some (g a) else none := by
  induction l with
  | nil => rfl
  | cons a t ih =>
    simp only [List.map_cons, List.find?, List.findSome?]
    cases h : p (g a) <;> simp [h, ih]

/-- C1, counterexample: `start(1)` on a fresh display followed by
exactly 1 tick leaves `remaining_time = 0` but has invoked the
on-time-up callback 0 times, not exactly once as the claim states: the
tick that brings `remaining_time` to 0 only decrements, and the
completion branch of `update_time` runs on the following tick. -/
theorem C1_counterexample :
    (tickN 1 (freshTimeDisplay.start (some 1))).remaining_time = 0 ∧
    ¬ (tickN 1 (freshTimeDisplay.start (some 1))).completedCount = 1 := by
  decide

/-- C1, amended: for every positive duration `d`, `start(d)` on a fresh
display followed by exactly `d` ticks yields `remaining_time = 0` with
no completion signal yet; the single completion signal arrives on tick
`d + 1`, after which `remaining_time` is still 0 and exactly one
completion has been signalled. -/
theorem C1_theorem (d : Nat) (hd : 0 < d) :
    (tickN d (freshTimeDisplay.start (some (d : Int)))).remaining_time = 0 ∧
    (tickN d (freshTimeDisplay.start (some (d : Int)))).completedCount = 0 ∧
    (tickN (d + 1) (freshTimeDisplay.start (some (d : Int)))).remaining_time = 0 ∧
    (tickN (d + 1) (freshTimeDisplay.start (some (d : Int)))).completedCount = 1 := by
  rw [start_fresh, tickN_runState, tickN_runState]
  rw [if_pos (le_refl d), if_neg (by omega)]
  refine ⟨?_, rfl, rfl, rfl⟩
  simp [runState]

/-- C1, witness at `d = 2`. -/
theorem C1_witness :
    0 < 2 ∧
    ((tickN 2 (freshTimeDisplay.start (some ((2 : Nat) : Int)))).remaining_time = 0 ∧
     (tickN 2 (freshTimeDisplay.start (some ((2 : Nat) : Int)))).completedCount = 0 ∧
     (tickN 3 (freshTimeDisplay.start (some ((2 : Nat) : Int)))).remaining_time = 0 ∧
     (tickN 3 (freshTimeDisplay.start (some ((2 : Nat) : Int)))).completedCount = 1) :=
  ⟨by decide, C1_theorem 2 (by decide)⟩

/-- C4: a phase flip — whether from `on_time_up` or from the manual
toggle-phase button, which perform the same state change — negates the
phase, loads the timer with the new phase's configured duration
(`remaining_time = duration` = the configuration value for the new
phase, which the flip does not change), and leaves the timer not
running (`timer_active = false`, interval timer paused): it never
auto-starts. -/
theorem C4_theorem (c : PomodoroClock) :
    c.on_time_up.state.is_work_phase = !c.state.is_work_phase ∧
    c.on_time_up.time_display.duration =
      (if c.on_time_up.state.is_work_phase then c.state.work_duration
       else c.state.break_duration) ∧
    c.on_time_up.time_display.remaining_time = c.on_time_up.time_display.duration ∧
    c.on_time_up.time_display.timer_active = false ∧
    c.on_time_up.time_display.intervalPaused = true ∧
    c.on_time_up.state.work_duration = c.state.work_duration ∧
    c.on_time_up.state.break_duration = c.state.break_duration ∧
    c.press_toggle_phase = c.on_time_up :=
  ⟨rfl, rfl, rfl, rfl, rfl, rfl, rfl, rfl⟩

/-- C5, counterexample: `start(0)` — a given duration that is not a
positive integer — does not fail (no validation exists anywhere in
`TimeDisplay.start`) and sets the timer running, contradicting the
claim that it fails with `InvalidDuration` and does not set the timer
running. -/
theorem C5_counterexample :
    (freshTimeDisplay.start (some 0)).timer_active = true ∧
    (freshTimeDisplay.start (some 0)).remaining_time = 0 := by
  decide

/-- C5, amended: `start` performs no validation of the duration: for
every given duration value, including zero and negative values, it sets
`duration` and `remaining_time` to that value, sets the timer running
and resumes the interval timer; no `InvalidDuration` failure path
exists in the code. -/
theorem C5_theorem (s : TimeDisplay) (d : Int) :
    (s.start (some d)).duration = d ∧
    (s.start (some d)).remaining_time = d ∧
    (s.start (some d)).timer_active = true ∧
    (s.start (some d)).paused = false ∧
    (s.start (some d)).intervalPaused = false :=
  ⟨rfl, rfl, rfl, rfl, rfl⟩

/-- C8: on one countdown run (`start(d)` on a fresh display, then any
number of ticks), at most one completion signal is ever emitted, and
once the countdown has completed (every tick past the `d`-th), a
further tick leaves the state unchanged and emits no signal, because
completion paused the interval timer. -/
theorem C8_theorem (d n : Nat) (hd : 0 < d) :
    (tickN n (freshTimeDisplay.start (some (d : Int)))).completedCount ≤ 1 ∧
    (d < n → (tickN n (freshTimeDisplay.start (some (d : Int)))).tick =
      tickN n (freshTimeDisplay.start (some (d : Int)))) := by
  rw [start_fresh, tickN_runState]
  by_cases h : n ≤ d
  · rw [if_pos h]
    exact ⟨by simp [runState], fun hlt => absurd hlt (by omega)⟩
  · rw [if_neg h]
    exact ⟨by simp [doneState], fun _ => tick_doneState d⟩

/-- C8, witness at `d = 1`, `n = 3`. -/
theorem C8_witness :
    0 < 1 ∧
    ((tickN 3 (freshTimeDisplay.start (some ((1 : Nat) : Int)))).completedCount ≤ 1 ∧
     (1 < 3 → (tickN 3 (freshTimeDisplay.start (some ((1 : Nat) : Int)))).tick =
       tickN 3 (freshTimeDisplay.start (some ((1 : Nat) : Int))))) :=
  ⟨by decide, C8_theorem 1 3 (by decide)⟩

/-- C9: after `stop()`, any number of ticks (with no intervening
`start` or `reset`) leaves `remaining_time` unchanged: `stop` pauses
the interval timer, so every subsequent tick event is a no-op. -/
theorem C9_theorem (s : TimeDisplay) (n : Nat) :
    (tickN n s.stop).remaining_time = s.remaining_time := by
  rw [tickN_frozen n s.stop rfl]
  rfl

/-- C2: the next-due-date computation returns `previous + 1` day for a
Daily task (`now + 1` when no previous due date is set), `previous + 30`
days for Monthly (`now + 30` when unset), `previous + 365` days for
Yearly (`now + 365` when unset), and nothing when no recurrence flag is
set. -/
theorem C2_theorem (p now : Int) (due : Option Int) (days : List String) :
    calculate_next_due_date (some p) (recTask true false false false days) now =
      some (p + 1) ∧
    calculate_next_due_date none (recTask true false false false days) now =
      some (now + 1) ∧
    calculate_next_due_date (some p) (recTask false false true false days) now =
      some (p + 30) ∧
    calculate_next_due_date none (recTask false false true false days) now =
      some (now + 30) ∧
    calculate_next_due_date (some p) (recTask false false false true days) now =
      some (p + 365) ∧
    calculate_next_due_date none (recTask false false false true days) now =
      some (now + 365) ∧
    calculate_next_due_date due (recTask false false false false days) now = none :=
  ⟨rfl, rfl, rfl, rfl, rfl, rfl, rfl⟩

/-- C3: for every non-empty weekday-name list, the Weekly computation
anchors at the previous due date when present and strictly later than
`now` (else at `now`) and returns the first of the 7 consecutive
candidate days `anchor, anchor+1, …, anchor+6` whose weekday name is in
the list; concretely, days `{Monday, Wednesday}` with no previous due
date and `now` = day 19853 (Friday 2024-05-10) yield day 19856 (Monday
2024-05-13). -/
theorem C3_theorem (due : Option Int) (days : List String) (now : Int)
    (h : days ≠ []) :
    get_next_weekly_date due days now =
      ((List.range 7).map fun i => weeklyAnchor due now + (i : Int)).find?
        (fun dt => days.contains (weekdayName dt)) ∧
    get_next_weekly_date none ["Monday", "Wednesday"] 19853 = some 19856 := by
  constructor
  · cases days with
    | nil => exact absurd rfl h
    | cons a t =>
      cases due with
      | none => rw [map_find?_eq_findSome?]; rfl
      | some d => rw [map_find?_eq_findSome?]; rfl
  · decide

/-- C3, witness at `days = {Monday, Wednesday}`, no previous due date,
`now` = day 19853. -/
theorem C3_witness :
    (["Monday", "Wednesday"] : List String) ≠ [] ∧
    (get_next_weekly_date none ["Monday", "Wednesday"] 19853 =
      ((List.range 7).map fun i => weeklyAnchor none 19853 + (i : Int)).find?
        (fun dt => List.contains ["Monday", "Wednesday"] (weekdayName dt)) ∧
     get_next_weekly_date none ["Monday", "Wednesday"] 19853 = some 19856) :=
  ⟨by decide, C3_theorem none ["Monday", "Wednesday"] 19853 (by decide)⟩

/-- C10: when several recurrence flags are set at once, the next due
date is decided by the first true flag in the source's if-chain order
daily, weekly, monthly, yearly — the flags after the first true one
have no effect on the result. -/
theorem C10_theorem (due : Option Int) (now : Int) (w m y : Bool)
    (days : List String) :
    calculate_next_due_date due (recTask true w m y days) now =
      calculate_next_due_date due (recTask true false false false days) now ∧
    calculate_next_due_date due (recTask false true m y days) now =
      calculate_next_due_date due (recTask false true false false days) now ∧
    calculate_next_due_date due (recTask false false true y days) now =
      calculate_next_due_date due (recTask false false true false days) now :=
  ⟨rfl, rfl, rfl⟩

/-- One sweep over a store holding a single uncompleted Daily task
inserts exactly one follow-up, which is itself an uncompleted Daily
task. -/
lemma sweep_one (t : Task) (now : Int) (nid : Nat)
    (h1 : t.completed = false) (h2 : t.is_daily = true) :
    process_repeated_tasks ⟨[t], nid⟩ now =
      ⟨[t, { mkFollowUp t (t.due_date.getD now + 1) now with id := some nid }],
        nid + 1⟩ := by
  have hrec : isRecurringPending t = true := by
    simp [isRecurringPending, h1, h2]
  simp [process_repeated_tasks, List.filter_cons, hrec,
    calc_daily t.due_date t now h2, add_task]

/-- C6, counterexample: on the concrete store holding exactly one
uncompleted Daily task, running the sweep twice yields 4 records in
total — 3 follow-ups, not the 2 the claim states: the second sweep
processes both the original task and the first follow-up, since the
follow-up is itself an uncompleted recurring task matching the fetch
filter. -/
theorem C6_counterexample :
    (process_repeated_tasks (process_repeated_tasks storeExample 200) 200).tasks.length = 4 ∧
    ¬ (process_repeated_tasks (process_repeated_tasks storeExample 200) 200).tasks.length = 3 := by
  decide

/-- C6, amended: for every store containing exactly one uncompleted
Daily recurring task, running the scheduling sweep twice produces
exactly three follow-up records (4 records in total): each sweep
duplicates every uncompleted recurring task it sees, and the second
sweep sees both the original and the first follow-up. -/
theorem C6_theorem (t : Task) (now : Int) (nid : Nat)
    (h1 : t.completed = false) (h2 : t.is_daily = true) :
    (process_repeated_tasks (process_repeated_tasks ⟨[t], nid⟩ now) now).tasks.length = 4 := by
  rw [sweep_one t now nid h1 h2]
  have hrec : isRecurringPending t = true := by
    simp [isRecurringPending, h1, h2]
  have hrecF :
      isRecurringPending
        { mkFollowUp t (t.due_date.getD now + 1) now with id := some nid } = true := by
    simp [isRecurringPending, mkFollowUp, h2]
  have hdF :
      Task.is_daily
        { mkFollowUp t (t.due_date.getD now + 1) now with id := some nid } = true := by
    simp [mkFollowUp, h2]
  simp [process_repeated_tasks, List.filter_cons, hrec, hrecF,
    calc_daily t.due_date t now h2, calc_daily _ _ now hdF, add_task]

/-- C6, witness: the concrete one-task store. -/
theorem C6_witness :
    dailyTaskExample.completed = false ∧ dailyTaskExample.is_daily = true ∧
    (process_repeated_tasks (process_repeated_tasks ⟨[dailyTaskExample], 2⟩ 200) 200).tasks.length = 4 :=
  ⟨rfl, rfl, C6_theorem dailyTaskExample 200 2 rfl rfl⟩

/-- C7: the follow-up record inserted for a source task and computed
next due date copies `title`, `text`, `priority`, the four recurrence
flags, `days_of_week` and `category_id` from the source, has
`completed = false` and `due_date` = the computed next due date,
receives the store's next AUTOINCREMENT id — distinct from the source's
id, which is already in the store and hence below `nextId` — and the
insertion leaves every existing record, the source included,
unmodified. -/
theorem C7_theorem (s : TaskStore) (t : Task) (nd now : Int) (i : Nat)
    (hid : t.id = some i) (hlt : i < s.nextId) :
    (add_task s (mkFollowUp t nd now)).2.title = t.title ∧
    (add_task s (mkFollowUp t nd now)).2.text = t.text ∧
    (add_task s (mkFollowUp t nd now)).2.priority = t.priority ∧
    (add_task s (mkFollowUp t nd now)).2.is_daily = t.is_daily ∧
    (add_task s (mkFollowUp t nd now)).2.is_weekly = t.is_weekly ∧
    (add_task s (mkFollowUp t nd now)).2.is_monthly = t.is_monthly ∧
    (add_task s (mkFollowUp t nd now)).2.is_yearly = t.is_yearly ∧
    (add_task s (mkFollowUp t nd now)).2.days_of_week = t.days_of_week ∧
    (add_task s (mkFollowUp t nd now)).2.category_id = t.category_id ∧
    (add_task s (mkFollowUp t nd now)).2.completed = false ∧
    (add_task s (mkFollowUp t nd now)).2.due_date = some nd ∧
    (add_task s (mkFollowUp t nd now)).2.id = some s.nextId ∧
    (add_task s (mkFollowUp t nd now)).2.id ≠ t.id ∧
    (add_task s (mkFollowUp t nd now)).1.tasks =
      s.tasks ++ [(add_task s (mkFollowUp t nd now)).2] := by
  refine ⟨rfl, rfl, rfl, rfl, rfl, rfl, rfl, rfl, rfl, rfl, rfl, rfl, ?_, rfl⟩
  have h2 : (add_task s (mkFollowUp t nd now)).2.id = some s.nextId := rfl
  rw [h2, hid, Ne, Option.some_inj]
  omega

/-- C7, witness: the concrete store and Daily task. -/
theorem C7_witness :
    dailyTaskExample.id = some 1 ∧ 1 < storeExample.nextId ∧
    ((add_task storeExample (mkFollowUp dailyTaskExample 101 200)).2.title = dailyTaskExample.title ∧
     (add_task storeExample (mkFollowUp dailyTaskExample 101 200)).2.text = dailyTaskExample.text ∧
     (add_task storeExample (mkFollowUp dailyTaskExample 101 200)).2.priority = dailyTaskExample.priority ∧
     (add_task storeExample (mkFollowUp dailyTaskExample 101 200)).2.is_daily = dailyTaskExample.is_daily ∧
     (add_task storeExample (mkFollowUp dailyTaskExample 101 200)).2.is_weekly = dailyTaskExample.is_weekly ∧
     (add_task storeExample (mkFollowUp dailyTaskExample 101 200)).2.is_monthly = dailyTaskExample.is_monthly ∧
     (add_task storeExample (mkFollowUp dailyTaskExample 101 200)).2.is_yearly = dailyTaskExample.is_yearly ∧
     (add_task storeExample (mkFollowUp dailyTaskExample 101 200)).2.days_of_week = dailyTaskExample.days_of_week ∧
     (add_task storeExample (mkFollowUp dailyTaskExample 101 200)).2.category_id = dailyTaskExample.category_id ∧
     (add_task storeExample (mkFollowUp dailyTaskExample 101 200)).2.completed = false ∧
     (add_task storeExample (mkFollowUp dailyTaskExample 101 200)).2.due_date = some 101 ∧
     (add_task storeExample (mkFollowUp dailyTaskExample 101 200)).2.id = some storeExample.nextId ∧
     (add_task storeExample (mkFollowUp dailyTaskExample 101 200)).2.id ≠ dailyTaskExample.id ∧
     (add_task storeExample (mkFollowUp dailyTaskExample 101 200)).1.tasks =
       storeExample.tasks ++ [(add_task storeExample (mkFollowUp dailyTaskExample 101 200)).2]) :=
  ⟨rfl, by decide, C7_theorem storeExample dailyTaskExample 101 200 1 rfl (by decide)⟩

end Pocut
